import Mathlib

/-!
Verification of the credential-issuance function `issue_sas` from
`src/function_app.py` (an HTTP-triggered Azure Function that issues
short-lived scoped upload credentials).

Modelling conventions for the shallow embedding:

* Time is an integer count of seconds; `timedelta(minutes=m)` is `60 * m`.
  Both `datetime.now(timezone.utc)` calls inside a single request are
  modelled as the same instant `now`.
* Python exceptions are values of `PyExn`, carrying the exception type
  name (`type(e).__name__`), the message (`str(e)`) and whether the
  exception is an instance of `ValueError` (which the handler at the
  bottom of `issue_sas` treats specially).
* `os.environ` is the explicit record `Env`; absent variables are `none`.
* The parsed JSON request body (`req.get_json()` followed by `.get`
  lookups) is the record `ReqBody`; `req.get_json()` raising (invalid
  JSON, or a non-dict body whose `.get` would fail) is modelled by the
  `Except` parameter `gj` being an error.
* The Azure SDK calls `get_user_delegation_key` and `generate_blob_sas`
  are an oracle record `Backend`; every invocation the code makes is
  recorded in an event trace, so that properties about which calls are
  made (and with which arguments) can be stated.
* HTTP response bodies are modelled structurally: `json.dumps` of a dict
  becomes the ordered field list of `Body.json`, plain string bodies
  become `Body.plain`.
-/

namespace FuncApp

/-- Characters accepted by `SAFE_RE = ^[a-zA-Z0-9_\-\.]+$`. -/
def isSafeChar (c : Char) : Bool :=
  ('a' ≤ c && c ≤ 'z') || ('A' ≤ c && c ≤ 'Z') || ('0' ≤ c && c ≤ '9') ||
    c == '_' || c == '-' || c == '.'

/-- The whitespace stripped by Python `str.strip()` and `int()`
(CPython `Py_UNICODE_ISSPACE`): the ASCII whitespace characters
U+0009–U+000D and U+0020, the information separators U+001C–U+001F,
next line U+0085, no-break space U+00A0, ogham space mark U+1680, the
general punctuation spaces U+2000–U+200A, line/paragraph separators
U+2028–U+2029, narrow no-break space U+202F, medium mathematical space
U+205F, and ideographic space U+3000. -/
def isPySpace (c : Char) : Bool :=
  (0x9 ≤ c.toNat && c.toNat ≤ 0xd) || c.toNat == 0x20 ||
  (0x1c ≤ c.toNat && c.toNat ≤ 0x1f) || c.toNat == 0x85 || c.toNat == 0xa0 ||
  c.toNat == 0x1680 || (0x2000 ≤ c.toNat && c.toNat ≤ 0x200a) ||
  c.toNat == 0x2028 || c.toNat == 0x2029 || c.toNat == 0x202f ||
  c.toNat == 0x205f || c.toNat == 0x3000

/-- Python `str.strip()` on a character list: drop whitespace at both ends. -/
def pyStripList (cs : List Char) : List Char :=
  ((cs.dropWhile isPySpace).reverse.dropWhile isPySpace).reverse

/-- Python `str.strip()`. -/
def pyStrip (s : String) : String := ⟨pyStripList s.data⟩

/-- Whether `SAFE_RE.match(s)` succeeds.  `re.match` anchors at the start;
the regex itself ends in `$`, which in Python matches at the end of the
string or just before one final newline.  So the regex matches exactly
when the string (or the string minus one trailing newline) is a nonempty
run of safe characters. -/
def safeReMatch (cs : List Char) : Bool :=
  match cs.getLast? with
  | none => false
  | some c =>
    if c == '\n' then !cs.dropLast.isEmpty && cs.dropLast.all isSafeChar
    else !cs.isEmpty && cs.all isSafeChar

/-- A Python exception value: its type name, `str(e)`, and whether it is
an instance of `ValueError`. -/
structure PyExn where
  typeName : String
  msg : String
  isValueError : Bool
deriving DecidableEq

/-- A `ValueError` with the given message. -/
def valueError (m : String) : PyExn := ⟨"ValueError", m, true⟩

/-- A `KeyError` for a missing environment key; `str(KeyError(k))` is the
repr of the key, i.e. the key in single quotes. -/
def keyError (k : String) : PyExn := ⟨"KeyError", "'" ++ k ++ "'", false⟩

/-- `_safe` from function_app.py:
`if not s or not SAFE_RE.match(s): raise ValueError(f"Invalid " + field)`,
else return `s`.  The raised exception becomes an `Except.error`. -/
def _safe (s : String) (field : String) : Except PyExn String :=
  if s = "" ∨ safeReMatch s.data = false then
    .error (valueError ("Invalid " ++ field))
  else .ok s

/-- Python `repr` of a string: single quotes around the text.  (Exact for
strings containing no quotes, backslashes or control characters, which
covers every string this development evaluates it on.) -/
def pyRepr (s : String) : String := "'" ++ s ++ "'"

/-- The first code points of the Unicode 15.0 decimal-digit (`Nd`)
blocks; every `Nd` block is a run of ten consecutive code points for the
digits 0–9.  Python `int()` accepts any of these digits. -/
def ndRangeStarts : List Nat :=
  [0x30, 0x660, 0x6F0, 0x7C0, 0x966, 0x9E6, 0xA66, 0xAE6, 0xB66, 0xBE6,
   0xC66, 0xCE6, 0xD66, 0xDE6, 0xE50, 0xED0, 0xF20, 0x1040, 0x1090, 0x17E0,
   0x1810, 0x1946, 0x19D0, 0x1A80, 0x1A90, 0x1B50, 0x1BB0, 0x1C40, 0x1C50,
   0xA620, 0xA8D0, 0xA900, 0xA9D0, 0xA9F0, 0xAA50, 0xABF0, 0xFF10,
   0x104A0, 0x10D30, 0x11066, 0x110F0, 0x11136, 0x111D0, 0x112F0, 0x11450,
   0x114D0, 0x11650, 0x116C0, 0x11730, 0x118E0, 0x11950, 0x11C50, 0x11D50,
   0x11DA0, 0x11F50, 0x16A60, 0x16AC0, 0x16B50,
   0x1D7CE, 0x1D7D8, 0x1D7E2, 0x1D7EC, 0x1D7F6,
   0x1E140, 0x1E2F0, 0x1E4F0, 0x1E950, 0x1FBF0]

/-- The decimal value of a Unicode decimal digit (`Nd`), as recognised by
Python `int()`; `none` for every other character. -/
def pyDigitVal (c : Char) : Option Nat :=
  match ndRangeStarts.find? (fun b => b ≤ c.toNat && c.toNat ≤ b + 9) with
  | some b => some (c.toNat - b)
  | none => none

/-- Digit run in the body of a Python integer literal: after an initial
digit, further digits may be separated by single underscores. -/
def pyDigitsAux : List Char → Nat → Option Nat
  | [], acc => some acc
  | '_' :: c :: rest, acc =>
    match pyDigitVal c with
    | some v => pyDigitsAux rest (acc * 10 + v)
    | none => none
  | c :: rest, acc =>
    match pyDigitVal c with
    | some v => pyDigitsAux rest (acc * 10 + v)
    | none => none

/-- Parse a nonempty digit run (with optional single underscores between
digits), as accepted by Python `int()` after sign and whitespace. -/
def pyDigits : List Char → Option Nat
  | [] => none
  | c :: rest =>
    match pyDigitVal c with
    | some v => pyDigitsAux rest v
    | none => none

/-- The value of a Python base-10 integer literal (after `int()` strips
whitespace): optional sign, then digits; `none` when malformed. -/
def pyIntOpt (s : String) : Option Int :=
  match pyStripList s.data with
  | '+' :: r => (pyDigits r).map (fun n => (n : Int))
  | '-' :: r => (pyDigits r).map (fun n => -(n : Int))
  | r => (pyDigits r).map (fun n => (n : Int))

/-- Python `int(s)` on a string: strip whitespace, optional sign, base-10
digits.  Failure raises `ValueError("invalid literal for int() ...")`. -/
def pyInt (s : String) : Except PyExn Int :=
  match pyIntOpt s with
  | some v => .ok v
  | none => .error (valueError ("invalid literal for int() with base 10: " ++ pyRepr s))

/-- Index of the last occurrence of `c` in `cs`, if any. -/
def lastIdxOf (c : Char) (cs : List Char) : Option Nat :=
  match cs.reverse.findIdx? (· == c) with
  | none => none
  | some i => some (cs.length - 1 - i)

/-- `posixpath.splitext`: the basename begins after the last `/` (at
index 0 when there is none). -/
def splitextFnStart (cs : List Char) : Nat :=
  match lastIdxOf '/' cs with
  | none => 0
  | some i => i + 1

/-- The extension part of `os.path.splitext(p)` (posixpath): the suffix
from the last dot onward, provided that dot lies after the last `/` and
at least one character strictly between the last `/` and that dot is not
itself a dot; otherwise the empty string. -/
def splitextExt (p : String) : String :=
  match lastIdxOf '.' p.data with
  | none => ""
  | some d =>
    if splitextFnStart p.data ≤ d &&
        ((p.data.drop (splitextFnStart p.data)).take (d - splitextFnStart p.data)).any
          (fun c => !(c == '.')) then
      ⟨p.data.drop d⟩
    else ""

/-- Lines 75–77 of function_app.py:
`_, ext = os.path.splitext(filename); ext = ext if ext else ".pdf"`. -/
def extOrDefault (filename : String) : String :=
  if splitextExt filename = "" then ".pdf" else splitextExt filename

/-- The permission flags of `azure.storage.blob.BlobSasPermissions`.
`add` is the append-block permission (the spec's "append").  Blob-level
SAS has no list grant at all; `list` is modelled as a field the
constructor never sets, so it is always `false` here. -/
structure BlobSasPermissions where
  read : Bool
  add : Bool
  create : Bool
  write : Bool
  delete : Bool
  list : Bool
deriving DecidableEq

/-- Line 115 of function_app.py:
`BlobSasPermissions(write=True, create=True, add=True)`; every other
flag keeps its default `False`. -/
def sasPermissions : BlobSasPermissions :=
  { read := false, add := true, create := true, write := true,
    delete := false, list := false }

/-- The arguments of the `generate_blob_sas` call (lines 105–123). -/
structure SasRequest where
  accountName : String
  containerName : String
  blobName : String
  userDelegationKey : String
  permission : BlobSasPermissions
  expiry : Int
  start : Int
  contentType : Option String
deriving DecidableEq

/-- The storage identity backend: `get_user_delegation_key` (one network
round trip) and `generate_blob_sas` (SDK signing).  Either may raise. -/
structure Backend where
  getUserDelegationKey : Int → Int → Except PyExn String
  generateBlobSas : SasRequest → Except PyExn String

/-- Environment configuration (`os.environ`). -/
structure Env where
  storageAccountName : Option String
  uploadsContainer : Option String
  sasTtlMinutes : Option String

/-- The parsed JSON request body; a field absent from the JSON dict is
`none` (so `body.get(field, "")` yields `""`). -/
structure ReqBody where
  sid : Option String
  label : Option String
  filename : Option String

/-- The data of the 200 response (lines 127–143). -/
structure SuccessOut where
  uploadUrl : String
  blobName : String
  expiresInMinutes : Int
deriving DecidableEq

/-- A JSON scalar appearing in a response body. -/
inductive JVal where
  | str (v : String)
  | int (v : Int)
deriving DecidableEq

/-- An HTTP response body: a plain string, or `json.dumps` of a dict
modelled as its ordered field list. -/
inductive Body where
  | plain (s : String)
  | json (fields : List (String × JVal))
deriving DecidableEq

/-- An HTTP response. -/
structure HttpResponse where
  statusCode : Nat
  body : Body
deriving DecidableEq

/-- Whether a response body is a JSON object carrying the given key. -/
def bodyHasKey (b : Body) (k : String) : Bool :=
  match b with
  | .plain _ => false
  | .json fields => fields.any (fun f => f.1 == k)

/-- One recorded call to the storage backend. -/
inductive CallEvent where
  | udk (start expiry : Int)
  | sas (req : SasRequest)
deriving DecidableEq

/-- Lines 57–65 of function_app.py: parse the body and validate the three
fields, in order `sid`, `label`, `filename`; each is `.strip()`ed and
passed through `_safe`. -/
def validateBody (gj : Except PyExn ReqBody) : Except PyExn (String × String × String) :=
  match gj with
  | .error e => .error e
  | .ok bd =>
    match _safe (pyStrip (bd.sid.getD "")) "sid" with
    | .error e => .error e
    | .ok sid =>
      match _safe (pyStrip (bd.label.getD "")) "label" with
      | .error e => .error e
      | .ok label =>
        match _safe (pyStrip (bd.filename.getD "")) "filename" with
        | .error e => .error e
        | .ok filename => .ok (sid, label, filename)

/-- The body of the `try` block of `issue_sas` (lines 55–143), returning
either the success data or the raised exception, together with the trace
of backend calls made.  Mirrors the source order: validation, then
`STORAGE_ACCOUNT_NAME` (a missing key raises `KeyError`), container and
TTL configuration, extension and blob-name derivation, window
computation, delegation-key fetch, SAS signing, URL assembly. -/
def issueSasCore (b : Backend) (env : Env) (gj : Except PyExn ReqBody) (now : Int) :
    Except PyExn SuccessOut × List CallEvent :=
  match validateBody gj with
  | .error e => (.error e, [])
  | .ok (sid, label, filename) =>
    match env.storageAccountName with
    | none => (.error (keyError "STORAGE_ACCOUNT_NAME"), [])
    | some account_name =>
      let container := env.uploadsContainer.getD "uploads"
      match pyInt (env.sasTtlMinutes.getD "10") with
      | .error e => (.error e, [])
      | .ok ttl_min =>
        let ext := extOrDefault filename
        let blob_name := sid ++ "_" ++ label ++ ext
        let start := now - 60
        let expiry := now + 60 * ttl_min
        match b.getUserDelegationKey start expiry with
        | .error e => (.error e, [CallEvent.udk start expiry])
        | .ok udk =>
          let req : SasRequest :=
            ⟨account_name, container, blob_name, udk, sasPermissions, expiry, start, none⟩
          match b.generateBlobSas req with
          | .error e => (.error e, [CallEvent.udk start expiry, CallEvent.sas req])
          | .ok sas =>
            let upload_url := "https://" ++ account_name ++ ".blob.core.windows.net/" ++
              container ++ "/" ++ blob_name ++ "?" ++ sas
            (.ok ⟨upload_url, blob_name, ttl_min⟩,
             [CallEvent.udk start expiry, CallEvent.sas req])

/-- The `except` clauses of `issue_sas` (lines 145–161): a `ValueError`
becomes a 400 with `str(ve)` as plain text; any other exception becomes
a 500 with a JSON body of the exception type name and message. -/
def handleResult : Except PyExn SuccessOut → HttpResponse
  | .ok s =>
    ⟨200, .json [("uploadUrl", .str s.uploadUrl), ("blobName", .str s.blobName),
                 ("expiresInMinutes", .int s.expiresInMinutes)]⟩
  | .error e =>
    if e.isValueError then ⟨400, .plain e.msg⟩
    else ⟨500, .json [("error", .str e.typeName), ("detail", .str e.msg)]⟩

/-- The whole of `issue_sas`: the response together with the trace of
backend calls made while producing it. -/
def issue_sas (b : Backend) (env : Env) (gj : Except PyExn ReqBody) (now : Int) :
    HttpResponse × List CallEvent :=
  let r := issueSasCore b env gj now
  (handleResult r.1, r.2)

/-- The spec-side token condition: after trimming, nonempty and every
character in the `[A-Za-z0-9_.-]` class. -/
def goodToken (s : String) : Bool := !s.data.isEmpty && s.data.all isSafeChar

/-- Look a key up in a JSON response body. -/
def bodyGet (b : Body) (k : String) : Option JVal :=
  match b with
  | .plain _ => none
  | .json fields => (fields.find? (fun f => f.1 == k)).map (fun f => f.2)

/-- The extension rule as the spec sentence states it: the substring of
`filename` from the last `.` onward (including the dot), or `.pdf` when
`filename` contains no `.` at all. -/
def claimExt (fn : String) : String :=
  match lastIdxOf '.' fn.data with
  | none => ".pdf"
  | some d => ⟨fn.data.drop d⟩

/-- The extension rule as amended to match `os.path.splitext`: the
substring from the last `.` onward, provided at least one character
before that dot is not itself a dot; otherwise (no dot, or only dots
before the last dot) the default `.pdf`. -/
def amendedExt (fn : String) : String :=
  match lastIdxOf '.' fn.data with
  | none => ".pdf"
  | some d => if (fn.data.take d).all (fun c => c == '.') then ".pdf" else ⟨fn.data.drop d⟩

/-- Per-event check that any signing request carries exactly the
create/write/append permission set and none of read, delete, list. -/
def eventPermissionOk (ev : CallEvent) : Bool :=
  match ev with
  | .sas r => r.permission ==
      { read := false, add := true, create := true, write := true,
        delete := false, list := false }
  | .udk _ _ => true

/-- Per-event check that any signing request's object name is a nonempty
safe token (and would match `SAFE_RE`). -/
def eventNameSafe (ev : CallEvent) : Bool :=
  match ev with
  | .sas r => goodToken r.blobName && safeReMatch r.blobName.data
  | .udk _ _ => true

/-- The same check on the blob name of a successful result. -/
def resultNameSafe : Except PyExn SuccessOut → Bool
  | .ok s => goodToken s.blobName && safeReMatch s.blobName.data
  | .error _ => true

/-- A backend whose two operations always succeed. -/
def okBackend : Backend := ⟨fun _ _ => .ok "udkey", fun _ => .ok "sig=abc"⟩

/-- A backend whose delegation-key fetch fails with a (non-ValueError)
network exception. -/
def failBackend : Backend :=
  ⟨fun _ _ => .error ⟨"ServiceRequestError", "connection reset", false⟩,
   fun _ => .ok "sig=abc"⟩

/-- A backend whose delegation-key fetch raises a `ValueError` (as the
Azure SDK does for malformed parameters). -/
def valueErrBackend : Backend :=
  ⟨fun _ _ => .error ⟨"ValueError", "Invalid datetime", true⟩,
   fun _ => .ok "sig=abc"⟩

/-- A fully populated environment with the default container and TTL. -/
def goodEnv : Env := ⟨some "acct", some "uploads", some "10"⟩

/-- A valid request body. -/
def goodBody : ReqBody := ⟨some "case123", some "intake", some "form.pdf"⟩

/-! ### Bridge lemmas -/

lemma head?_dropWhile_not (p : Char → Bool) :
    ∀ (l : List Char) (a : Char), (l.dropWhile p).head? = some a → p a = false := by
  intro l
  induction l with
  | nil => intro a h; simp [List.dropWhile] at h
  | cons x xs ih =>
    intro a h
    by_cases hx : p x = true
    · rw [List.dropWhile_cons_of_pos hx] at h
      exact ih a h
    · rw [List.dropWhile_cons_of_neg hx] at h
      simp at h
      subst h
      simpa using hx

lemma pyStripList_getLast?_not_space {cs : List Char} {c : Char}
    (h : (pyStripList cs).getLast? = some c) : isPySpace c = false := by
  unfold pyStripList at h
  rw [List.getLast?_reverse] at h
  exact head?_dropWhile_not isPySpace _ c h

/-- On a whitespace-stripped string, `SAFE_RE.match` succeeds exactly when
the string is a nonempty run of safe characters (the trailing-newline
case of `$` can never fire, since a stripped string cannot end in a
newline). -/
lemma safeReMatch_pyStripList (cs : List Char) :
    safeReMatch (pyStripList cs) =
      (!(pyStripList cs).isEmpty && (pyStripList cs).all isSafeChar) := by
  cases h : (pyStripList cs).getLast? with
  | none =>
    have hnil : pyStripList cs = [] := List.getLast?_eq_none_iff.mp h
    simp [safeReMatch, hnil]
  | some c =>
    have hc : isPySpace c = false := pyStripList_getLast?_not_space h
    have hnl : (c == '\n') = false := by
      cases hq : c == '\n'
      · rfl
      · rw [show c = '\n' from beq_iff_eq.mp hq] at hc
        rw [show isPySpace '\n' = true from by decide] at hc
        cases hc
    unfold safeReMatch
    rw [h]
    simp [hnl]

lemma string_eq_iff_data {a b : String} : a = b ↔ a.data = b.data := by
  constructor
  · intro h; rw [h]
  · intro h; exact congrArg String.mk h

lemma pyStrip_data (s : String) : (pyStrip s).data = pyStripList s.data := rfl

lemma safe_strip_ok (raw f : String) (h : goodToken (pyStrip raw) = true) :
    _safe (pyStrip raw) f = .ok (pyStrip raw) := by
  unfold goodToken at h
  rw [Bool.and_eq_true, Bool.not_eq_true'] at h
  obtain ⟨h1, h2⟩ := h
  unfold _safe
  rw [if_neg]
  rintro (he | hm)
  · have hd : (pyStrip raw).data = [] := by rw [he]
    rw [hd] at h1
    simp at h1
  · rw [pyStrip_data, safeReMatch_pyStripList] at hm
    rw [pyStrip_data] at h1 h2
    rw [h1, h2] at hm
    simp at hm

lemma safe_strip_err (raw f : String) (h : goodToken (pyStrip raw) = false) :
    _safe (pyStrip raw) f = .error (valueError ("Invalid " ++ f)) := by
  unfold goodToken at h
  unfold _safe
  rw [if_pos]
  by_cases he : (pyStrip raw).data.isEmpty = true
  · left
    have hd : (pyStrip raw).data = [] := List.isEmpty_iff.mp he
    rw [string_eq_iff_data, hd]
  · right
    rw [Bool.not_eq_true] at he
    rw [pyStrip_data, safeReMatch_pyStripList]
    rw [pyStrip_data] at he h
    rw [he] at h ⊢
    simp at h
    simp [h]

lemma safe_strip_ok_inv {raw f out : String}
    (h : _safe (pyStrip raw) f = .ok out) :
    out = pyStrip raw ∧ goodToken (pyStrip raw) = true := by
  cases hg : goodToken (pyStrip raw) with
  | false => rw [safe_strip_err raw f hg] at h; cases h
  | true =>
    rw [safe_strip_ok raw f hg] at h
    cases h
    exact ⟨rfl, rfl⟩

/-- Successful validation yields exactly the three stripped fields, each
satisfying the safe-token condition. -/
lemma validateBody_ok_inv {gj : Except PyExn ReqBody} {sid label fn : String}
    (h : validateBody gj = .ok (sid, label, fn)) :
    ∃ bd, gj = .ok bd ∧
      sid = pyStrip (bd.sid.getD "") ∧ label = pyStrip (bd.label.getD "") ∧
      fn = pyStrip (bd.filename.getD "") ∧
      goodToken sid = true ∧ goodToken label = true ∧ goodToken fn = true := by
  cases gj with
  | error e => simp [validateBody] at h
  | ok bd =>
    refine ⟨bd, rfl, ?_⟩
    simp only [validateBody] at h
    cases h1 : _safe (pyStrip (bd.sid.getD "")) "sid" with
    | error e => simp [h1] at h
    | ok s1 =>
      simp only [h1] at h
      cases h2 : _safe (pyStrip (bd.label.getD "")) "label" with
      | error e => simp [h2] at h
      | ok s2 =>
        simp only [h2] at h
        cases h3 : _safe (pyStrip (bd.filename.getD "")) "filename" with
        | error e => simp [h3] at h
        | ok s3 =>
          simp only [h3] at h
          simp only [Except.ok.injEq, Prod.mk.injEq] at h
          obtain ⟨hs, hl, hf⟩ := h
          obtain ⟨e1, g1⟩ := safe_strip_ok_inv h1
          obtain ⟨e2, g2⟩ := safe_strip_ok_inv h2
          obtain ⟨e3, g3⟩ := safe_strip_ok_inv h3
          subst hs hl hf
          exact ⟨e1, e2, e3, e1 ▸ g1, e2 ▸ g2, e3 ▸ g3⟩

lemma lastIdxOf_lt_length {c : Char} {cs : List Char} {d : Nat}
    (h : lastIdxOf c cs = some d) : d < cs.length := by
  unfold lastIdxOf at h
  cases hf : cs.reverse.findIdx? (· == c) with
  | none => rw [hf] at h; cases h
  | some i =>
    rw [hf] at h
    have hi : i < cs.reverse.length := (List.findIdx?_eq_some_iff_findIdx_eq.mp hf).1
    rw [List.length_reverse] at hi
    cases h
    omega

lemma lastIdxOf_eq_none {c : Char} {cs : List Char}
    (h : ∀ x ∈ cs, (x == c) = false) : lastIdxOf c cs = none := by
  unfold lastIdxOf
  rw [List.findIdx?_eq_none_iff.mpr]
  intro x hx
  exact h x (List.mem_reverse.mp hx)

lemma splitextExt_all_safe {fn : String} (h : fn.data.all isSafeChar = true) :
    (splitextExt fn).data.all isSafeChar = true := by
  unfold splitextExt
  cases hdot : lastIdxOf '.' fn.data with
  | none => simp [hdot]
  | some d =>
    simp only [hdot]
    split
    · exact List.all_eq_true.mpr fun x hx =>
        List.all_eq_true.mp h x (List.drop_subset _ _ hx)
    · simp

lemma extOrDefault_all_safe {fn : String} (h : fn.data.all isSafeChar = true) :
    (extOrDefault fn).data.all isSafeChar = true := by
  unfold extOrDefault
  split
  · decide
  · exact splitextExt_all_safe h

lemma safeReMatch_of_good {s : String} (h : goodToken s = true) :
    safeReMatch s.data = true := by
  unfold goodToken at h
  rw [Bool.and_eq_true, Bool.not_eq_true'] at h
  obtain ⟨h1, h2⟩ := h
  cases hc : s.data.getLast? with
  | none =>
    rw [List.getLast?_eq_none_iff.mp hc] at h1
    simp at h1
  | some c =>
    have hmem : c ∈ s.data := List.mem_of_mem_getLast? hc
    have hsafe : isSafeChar c = true := List.all_eq_true.mp h2 c hmem
    have hnl : (c == '\n') = false := by
      cases hq : c == '\n'
      · rfl
      · rw [show c = '\n' from beq_iff_eq.mp hq] at hsafe
        simp [isSafeChar] at hsafe
    unfold safeReMatch
    rw [hc]
    simp [hnl, h1, h2]

/-- The derived blob name built from validated tokens is itself a
nonempty safe token matching `SAFE_RE`. -/
lemma blobName_token {sid label fn : String}
    (h1 : goodToken sid = true) (h2 : goodToken label = true)
    (h3 : goodToken fn = true) :
    goodToken (sid ++ "_" ++ label ++ extOrDefault fn) = true ∧
      safeReMatch (sid ++ "_" ++ label ++ extOrDefault fn).data = true := by
  unfold goodToken at h1 h2 h3
  rw [Bool.and_eq_true, Bool.not_eq_true'] at h1 h2 h3
  have hgood : goodToken (sid ++ "_" ++ label ++ extOrDefault fn) = true := by
    unfold goodToken
    rw [String.data_append, String.data_append, String.data_append]
    rw [Bool.and_eq_true, Bool.not_eq_true']
    constructor
    · simp [h1.1]
    · simp [List.all_append, h1.2, h2.2, extOrDefault_all_safe h3.2]
      decide
  exact ⟨hgood, safeReMatch_of_good hgood⟩

/-- On a string of safe characters (hence containing no `/` and not
ending in problems), `extOrDefault` agrees with the amended spec rule. -/
lemma extOrDefault_eq_amendedExt {fn : String} (h : fn.data.all isSafeChar = true) :
    extOrDefault fn = amendedExt fn := by
  have hsep : lastIdxOf '/' fn.data = none := by
    apply lastIdxOf_eq_none
    intro x hx
    have hs := List.all_eq_true.mp h x hx
    cases hq : x == '/'
    · rfl
    · rw [show x = '/' from beq_iff_eq.mp hq] at hs
      simp [isSafeChar] at hs
  have hstart : splitextFnStart fn.data = 0 := by
    unfold splitextFnStart
    rw [hsep]
  unfold extOrDefault splitextExt amendedExt
  rw [hstart]
  cases hdot : lastIdxOf '.' fn.data with
  | none => simp
  | some d =>
    simp only [hdot, List.drop_zero, Nat.sub_zero, Nat.zero_le, decide_True, Bool.true_and]
    cases hall : (fn.data.take d).all (fun c => c == '.') with
    | true =>
      have hany : (fn.data.take d).any (fun c => !(c == '.')) = false := by
        rw [List.any_eq_false]
        intro x hx
        simp [List.all_eq_true.mp hall x hx]
      simp [hany, hall]
    | false =>
      have hany : (fn.data.take d).any (fun c => !(c == '.')) = true := by
        rw [List.any_eq_true]
        rw [List.all_eq_false] at hall
        obtain ⟨x, hx, hxne⟩ := hall
        exact ⟨x, hx, by simp [hxne]⟩
      have hlt : d < fn.data.length := lastIdxOf_lt_length hdot
      have hne : (⟨fn.data.drop d⟩ : String) ≠ "" := by
        intro hcon
        have hd : fn.data.drop d = [] := string_eq_iff_data.mp hcon
        have : fn.data.length ≤ d := List.drop_eq_nil_iff.mp hd
        omega
      simp [hany, hall, hne]

/-- Any successful run derives its blob name purely from the validated
request fields. -/
lemma core_ok_inv {b : Backend} {env : Env} {gj : Except PyExn ReqBody}
    {now : Int} {s : SuccessOut}
    (h : (issueSasCore b env gj now).1 = .ok s) :
    ∃ sid label fn, validateBody gj = .ok (sid, label, fn) ∧
      s.blobName = sid ++ "_" ++ label ++ extOrDefault fn := by
  cases hv : validateBody gj with
  | error e => simp [issueSasCore, hv] at h
  | ok tup =>
    obtain ⟨sid, label, fn⟩ := tup
    refine ⟨sid, label, fn, rfl, ?_⟩
    cases hacct : env.storageAccountName with
    | none => simp [issueSasCore, hv, hacct] at h
    | some acct =>
      cases httl : pyInt (env.sasTtlMinutes.getD "10") with
      | error e => simp [issueSasCore, hv, hacct, httl] at h
      | ok t =>
        cases hudk : b.getUserDelegationKey (now - 60) (now + 60 * t) with
        | error e => simp [issueSasCore, hv, hacct, httl, hudk] at h
        | ok k =>
          cases hsas : b.generateBlobSas
              ⟨acct, env.uploadsContainer.getD "uploads",
               sid ++ "_" ++ label ++ extOrDefault fn, k, sasPermissions,
               now + 60 * t, now - 60, none⟩ with
          | error e => simp [issueSasCore, hv, hacct, httl, hudk, hsas] at h
          | ok u =>
            simp [issueSasCore, hv, hacct, httl, hudk, hsas] at h
            rw [← h]

lemma issue_sas_eq (b : Backend) (env : Env) (gj : Except PyExn ReqBody) (now : Int) :
    issue_sas b env gj now =
      (handleResult (issueSasCore b env gj now).1, (issueSasCore b env gj now).2) := rfl

lemma pyInt_err {s : String} {e : PyExn} (h : pyInt s = .error e) :
    e = valueError ("invalid literal for int() with base 10: " ++ pyRepr s) := by
  unfold pyInt at h
  cases hres : pyIntOpt s with
  | some v => rw [hres] at h; cases h
  | none => rw [hres] at h; cases h; rfl

lemma validate_err_sid {bd : ReqBody}
    (hs : goodToken (pyStrip (bd.sid.getD "")) = false) :
    validateBody (.ok bd) = .error (valueError "Invalid sid") := by
  have h := safe_strip_err (bd.sid.getD "") "sid" hs
  simp [validateBody, h]

lemma validate_err_label {bd : ReqBody}
    (hs : goodToken (pyStrip (bd.sid.getD "")) = true)
    (hl : goodToken (pyStrip (bd.label.getD "")) = false) :
    validateBody (.ok bd) = .error (valueError "Invalid label") := by
  have h1 := safe_strip_ok (bd.sid.getD "") "sid" hs
  have h2 := safe_strip_err (bd.label.getD "") "label" hl
  simp [validateBody, h1, h2]

lemma validate_err_filename {bd : ReqBody}
    (hs : goodToken (pyStrip (bd.sid.getD "")) = true)
    (hl : goodToken (pyStrip (bd.label.getD "")) = true)
    (hf : goodToken (pyStrip (bd.filename.getD "")) = false) :
    validateBody (.ok bd) = .error (valueError "Invalid filename") := by
  have h1 := safe_strip_ok (bd.sid.getD "") "sid" hs
  have h2 := safe_strip_ok (bd.label.getD "") "label" hl
  have h3 := safe_strip_err (bd.filename.getD "") "filename" hf
  simp [validateBody, h1, h2, h3]

/-! ### Claims -/

/-- C1: for every request that reaches credential signing, the permission
set passed to `generate_blob_sas` is exactly create, write and append
(`add`); read, delete and list are never granted, regardless of the
request's `sid`, `label` or `filename`. -/
theorem sas_permission_scope (b : Backend) (env : Env) (gj : Except PyExn ReqBody)
    (now : Int) : ((issue_sas b env gj now).2.all eventPermissionOk) = true := by
  rw [show (issue_sas b env gj now).2 = (issueSasCore b env gj now).2 from rfl]
  cases hv : validateBody gj with
  | error e => simp [issueSasCore, hv]
  | ok tup =>
    obtain ⟨sid, label, fn⟩ := tup
    cases hacct : env.storageAccountName with
    | none => simp [issueSasCore, hv, hacct]
    | some acct =>
      cases httl : pyInt (env.sasTtlMinutes.getD "10") with
      | error e => simp [issueSasCore, hv, hacct, httl]
      | ok t =>
        cases hudk : b.getUserDelegationKey (now - 60) (now + 60 * t) with
        | error e =>
          simp [issueSasCore, hv, hacct, httl, hudk, eventPermissionOk]
        | ok k =>
          cases hsas : b.generateBlobSas
              ⟨acct, env.uploadsContainer.getD "uploads",
               sid ++ "_" ++ label ++ extOrDefault fn, k, sasPermissions,
               now + 60 * t, now - 60, none⟩ with
          | error e =>
            simp [issueSasCore, hv, hacct, httl, hudk, hsas, eventPermissionOk]
            decide
          | ok u =>
            simp [issueSasCore, hv, hacct, httl, hudk, hsas, eventPermissionOk]
            decide

/-- C9: the derived object name — wherever it is used, in a signing
request or in a successful result — is a nonempty token of the safe
character class and matches the validation pattern. -/
theorem derived_name_safe (b : Backend) (env : Env) (gj : Except PyExn ReqBody)
    (now : Int) :
    (((issue_sas b env gj now).2.all eventNameSafe) &&
      resultNameSafe (issueSasCore b env gj now).1) = true := by
  rw [show (issue_sas b env gj now).2 = (issueSasCore b env gj now).2 from rfl]
  cases hv : validateBody gj with
  | error e => simp [issueSasCore, hv, resultNameSafe]
  | ok tup =>
    obtain ⟨sid, label, fn⟩ := tup
    obtain ⟨bd, hbd, hs, hl, hf, g1, g2, g3⟩ := validateBody_ok_inv hv
    obtain ⟨hg, hm⟩ := blobName_token g1 g2 g3
    cases hacct : env.storageAccountName with
    | none => simp [issueSasCore, hv, hacct, resultNameSafe]
    | some acct =>
      cases httl : pyInt (env.sasTtlMinutes.getD "10") with
      | error e => simp [issueSasCore, hv, hacct, httl, resultNameSafe]
      | ok t =>
        cases hudk : b.getUserDelegationKey (now - 60) (now + 60 * t) with
        | error e =>
          simp [issueSasCore, hv, hacct, httl, hudk, eventNameSafe, resultNameSafe]
        | ok k =>
          cases hsas : b.generateBlobSas
              ⟨acct, env.uploadsContainer.getD "uploads",
               sid ++ "_" ++ label ++ extOrDefault fn, k, sasPermissions,
               now + 60 * t, now - 60, none⟩ with
          | error e =>
            have hm' : safeReMatch (sid.data ++ '_' :: (label.data ++ (extOrDefault fn).data)) = true := by
              simpa using hm
            simp [issueSasCore, hv, hacct, httl, hudk, hsas,
              eventNameSafe, resultNameSafe, hg, hm']
          | ok u =>
            have hm' : safeReMatch (sid.data ++ '_' :: (label.data ++ (extOrDefault fn).data)) = true := by
              simpa using hm
            simp [issueSasCore, hv, hacct, httl, hudk, hsas,
              eventNameSafe, resultNameSafe, hg, hm']

/-- C6: the derived object name depends only on the request body — two
issuances with the same body at any two times, against any environments
and backends, produce the same blob name. -/
theorem object_name_time_independent (b1 b2 : Backend) (env1 env2 : Env)
    (gj : Except PyExn ReqBody) (t1 t2 : Int) (s1 s2 : SuccessOut)
    (h1 : (issueSasCore b1 env1 gj t1).1 = .ok s1)
    (h2 : (issueSasCore b2 env2 gj t2).1 = .ok s2) :
    s1.blobName = s2.blobName := by
  obtain ⟨sa, la, fa, hva, hna⟩ := core_ok_inv h1
  obtain ⟨sb, lb, fb, hvb, hnb⟩ := core_ok_inv h2
  have heq := hva.symm.trans hvb
  simp only [Except.ok.injEq, Prod.mk.injEq] at heq
  obtain ⟨ea, eb, ec⟩ := heq
  rw [hna, hnb, ea, eb, ec]

/-- Witness for C6: the same body issued at times 0 and 86400, against
different backends, yields the blob name case123_intake.pdf both times. -/
theorem object_name_time_independent_witness :
    (issueSasCore okBackend goodEnv (.ok goodBody) 0).1 =
      .ok ⟨"https://acct.blob.core.windows.net/uploads/case123_intake.pdf?sig=abc",
           "case123_intake.pdf", 10⟩ ∧
    (issueSasCore failBackend ⟨some "acct2", none, some "7"⟩ (.ok goodBody) 86400).1 =
      .error ⟨"ServiceRequestError", "connection reset", false⟩ ∧
    (issueSasCore ⟨fun _ _ => .ok "k2", fun _ => .ok "q=1"⟩
        ⟨some "acct2", none, some "7"⟩ (.ok goodBody) 86400).1 =
      .ok ⟨"https://acct2.blob.core.windows.net/uploads/case123_intake.pdf?q=1",
           "case123_intake.pdf", 7⟩ ∧
    (⟨"https://acct.blob.core.windows.net/uploads/case123_intake.pdf?sig=abc",
      "case123_intake.pdf", 10⟩ : SuccessOut).blobName =
      (⟨"https://acct2.blob.core.windows.net/uploads/case123_intake.pdf?q=1",
        "case123_intake.pdf", 7⟩ : SuccessOut).blobName := by
  refine ⟨rfl, rfl, rfl, ?_⟩
  exact object_name_time_independent okBackend ⟨fun _ _ => .ok "k2", fun _ => .ok "q=1"⟩
    goodEnv ⟨some "acct2", none, some "7"⟩ (.ok goodBody) 0 86400 _ _ rfl rfl

/-- C4: when any of the three fields is, after trimming, empty or holds a
character outside the safe class, the response is a 400 whose plain-text
body names an offending field, and no backend call is made. -/
theorem invalid_field_rejected (b : Backend) (env : Env) (gj : Except PyExn ReqBody)
    (now : Int) (bd : ReqBody) (hgj : gj = .ok bd)
    (hbad : goodToken (pyStrip (bd.sid.getD "")) = false ∨
            goodToken (pyStrip (bd.label.getD "")) = false ∨
            goodToken (pyStrip (bd.filename.getD "")) = false) :
    (issue_sas b env gj now).1.statusCode = 400 ∧
    (issue_sas b env gj now).2 = [] ∧
    ((goodToken (pyStrip (bd.sid.getD "")) = false ∧
        (issue_sas b env gj now).1.body = .plain "Invalid sid") ∨
     (goodToken (pyStrip (bd.label.getD "")) = false ∧
        (issue_sas b env gj now).1.body = .plain "Invalid label") ∨
     (goodToken (pyStrip (bd.filename.getD "")) = false ∧
        (issue_sas b env gj now).1.body = .plain "Invalid filename")) := by
  subst hgj
  cases hs : goodToken (pyStrip (bd.sid.getD "")) with
  | false =>
    have hcore : issueSasCore b env (.ok bd) now =
        (.error (valueError "Invalid sid"), []) := by
      simp [issueSasCore, validate_err_sid hs]
    rw [issue_sas_eq, hcore]
    exact ⟨rfl, rfl, Or.inl ⟨rfl, rfl⟩⟩
  | true =>
    cases hl : goodToken (pyStrip (bd.label.getD "")) with
    | false =>
      have hcore : issueSasCore b env (.ok bd) now =
          (.error (valueError "Invalid label"), []) := by
        simp [issueSasCore, validate_err_label hs hl]
      rw [issue_sas_eq, hcore]
      exact ⟨rfl, rfl, Or.inr (Or.inl ⟨rfl, rfl⟩)⟩
    | true =>
      cases hf : goodToken (pyStrip (bd.filename.getD "")) with
      | false =>
        have hcore : issueSasCore b env (.ok bd) now =
            (.error (valueError "Invalid filename"), []) := by
          simp [issueSasCore, validate_err_filename hs hl hf]
        rw [issue_sas_eq, hcore]
        exact ⟨rfl, rfl, Or.inr (Or.inr ⟨rfl, rfl⟩)⟩
      | true =>
        exfalso
        rcases hbad with h | h | h
        · rw [h] at hs; cases hs
        · rw [h] at hl; cases hl
        · rw [h] at hf; cases hf

/-- Witness for C4: `sid` = "case/123" (slash outside the safe class) is
rejected with 400 "Invalid sid" and the backend is never called. -/
theorem invalid_field_rejected_witness :
    (issue_sas okBackend goodEnv
        (.ok ⟨some "case/123", some "intake", some "form.pdf"⟩) 0).1.statusCode = 400 ∧
    (issue_sas okBackend goodEnv
        (.ok ⟨some "case/123", some "intake", some "form.pdf"⟩) 0).2 = [] ∧
    ((goodToken (pyStrip ((⟨some "case/123", some "intake", some "form.pdf"⟩ :
          ReqBody).sid.getD "")) = false ∧
        (issue_sas okBackend goodEnv
          (.ok ⟨some "case/123", some "intake", some "form.pdf"⟩) 0).1.body =
          .plain "Invalid sid") ∨
     (goodToken (pyStrip ((⟨some "case/123", some "intake", some "form.pdf"⟩ :
          ReqBody).label.getD "")) = false ∧
        (issue_sas okBackend goodEnv
          (.ok ⟨some "case/123", some "intake", some "form.pdf"⟩) 0).1.body =
          .plain "Invalid label") ∨
     (goodToken (pyStrip ((⟨some "case/123", some "intake", some "form.pdf"⟩ :
          ReqBody).filename.getD "")) = false ∧
        (issue_sas okBackend goodEnv
          (.ok ⟨some "case/123", some "intake", some "form.pdf"⟩) 0).1.body =
          .plain "Invalid filename")) :=
  invalid_field_rejected okBackend goodEnv
    (.ok ⟨some "case/123", some "intake", some "form.pdf"⟩) 0
    ⟨some "case/123", some "intake", some "form.pdf"⟩ rfl (Or.inl (by decide))

/-- C10: the fields are validated in the order `sid`, `label`, `filename`;
the 400 body is exactly "Invalid " followed by the first invalid field's
name. -/
theorem validation_order (b : Backend) (env : Env) (gj : Except PyExn ReqBody)
    (now : Int) (bd : ReqBody) (hgj : gj = .ok bd) :
    (goodToken (pyStrip (bd.sid.getD "")) = false →
      (issue_sas b env gj now).1 = ⟨400, .plain "Invalid sid"⟩) ∧
    (goodToken (pyStrip (bd.sid.getD "")) = true →
      goodToken (pyStrip (bd.label.getD "")) = false →
      (issue_sas b env gj now).1 = ⟨400, .plain "Invalid label"⟩) ∧
    (goodToken (pyStrip (bd.sid.getD "")) = true →
      goodToken (pyStrip (bd.label.getD "")) = true →
      goodToken (pyStrip (bd.filename.getD "")) = false →
      (issue_sas b env gj now).1 = ⟨400, .plain "Invalid filename"⟩) := by
  subst hgj
  refine ⟨fun hs => ?_, fun hs hl => ?_, fun hs hl hf => ?_⟩
  · have hcore : issueSasCore b env (.ok bd) now =
        (.error (valueError "Invalid sid"), []) := by
      simp [issueSasCore, validate_err_sid hs]
    rw [issue_sas_eq, hcore]
    rfl
  · have hcore : issueSasCore b env (.ok bd) now =
        (.error (valueError "Invalid label"), []) := by
      simp [issueSasCore, validate_err_label hs hl]
    rw [issue_sas_eq, hcore]
    rfl
  · have hcore : issueSasCore b env (.ok bd) now =
        (.error (valueError "Invalid filename"), []) := by
      simp [issueSasCore, validate_err_filename hs hl hf]
    rw [issue_sas_eq, hcore]
    rfl

/-- Witness for C10: with all three fields invalid ("a b", "c/d", ""),
the response names only `sid`, the first in validation order. -/
theorem validation_order_witness :
    (issue_sas okBackend goodEnv (.ok ⟨some "a b", some "c/d", some ""⟩) 0).1 =
      ⟨400, .plain "Invalid sid"⟩ ∧
    goodToken (pyStrip ((⟨some "a b", some "c/d", some ""⟩ : ReqBody).label.getD "")) = false ∧
    goodToken (pyStrip ((⟨some "a b", some "c/d", some ""⟩ : ReqBody).filename.getD "")) = false :=
  ⟨(validation_order okBackend goodEnv (.ok ⟨some "a b", some "c/d", some ""⟩) 0
      ⟨some "a b", some "c/d", some ""⟩ rfl).1 (by decide),
   by decide, by decide⟩

/-- C8: a fully successful run returns HTTP 200 with JSON fields exactly
`uploadUrl`, `blobName`, `expiresInMinutes`, where the URL is the
storage endpoint, container, derived object name and the signed query
string. -/
theorem success_response_shape (b : Backend) (env : Env) (gj : Except PyExn ReqBody)
    (now : Int) (bd : ReqBody) (sid label fn acct : String) (t : Int) (k sas : String)
    (hgj : gj = .ok bd)
    (hsid : _safe (pyStrip (bd.sid.getD "")) "sid" = .ok sid)
    (hlabel : _safe (pyStrip (bd.label.getD "")) "label" = .ok label)
    (hfn : _safe (pyStrip (bd.filename.getD "")) "filename" = .ok fn)
    (hacct : env.storageAccountName = some acct)
    (httl : pyInt (env.sasTtlMinutes.getD "10") = .ok t)
    (hudk : b.getUserDelegationKey (now - 60) (now + 60 * t) = .ok k)
    (hsas : b.generateBlobSas ⟨acct, env.uploadsContainer.getD "uploads",
        sid ++ "_" ++ label ++ extOrDefault fn, k, sasPermissions,
        now + 60 * t, now - 60, none⟩ = .ok sas) :
    (issue_sas b env gj now).1 =
      ⟨200, .json
        [("uploadUrl", .str ("https://" ++ acct ++ ".blob.core.windows.net/" ++
            env.uploadsContainer.getD "uploads" ++ "/" ++
            (sid ++ "_" ++ label ++ extOrDefault fn) ++ "?" ++ sas)),
         ("blobName", .str (sid ++ "_" ++ label ++ extOrDefault fn)),
         ("expiresInMinutes", .int t)]⟩ := by
  subst hgj
  have hv : validateBody (.ok bd) = .ok (sid, label, fn) := by
    simp [validateBody, hsid, hlabel, hfn]
  rw [issue_sas_eq]
  simp [issueSasCore, hv, hacct, httl, hudk, hsas, handleResult]

/-- Witness for C8 on the all-valid request at time 0. -/
theorem success_response_shape_witness :
    (issue_sas okBackend goodEnv (.ok goodBody) 0).1 =
      ⟨200, .json
        [("uploadUrl", .str "https://acct.blob.core.windows.net/uploads/case123_intake.pdf?sig=abc"),
         ("blobName", .str "case123_intake.pdf"),
         ("expiresInMinutes", .int 10)]⟩ :=
  success_response_shape okBackend goodEnv (.ok goodBody) 0 goodBody
    "case123" "intake" "form.pdf" "acct" 10 "udkey" "sig=abc"
    rfl rfl rfl rfl rfl rfl rfl rfl

/-- C5: with a positive configured TTL of t minutes, the requested window
is start = now − 1 minute and expiry = now + t minutes, so start is
strictly before expiry and the window spans t + 1 minutes; the success
response reports `expiresInMinutes` = t. -/
theorem validity_window_correct (b : Backend) (env : Env) (gj : Except PyExn ReqBody)
    (now : Int) (bd : ReqBody) (sid label fn acct : String) (t : Int) (k sas : String)
    (hgj : gj = .ok bd)
    (hsid : _safe (pyStrip (bd.sid.getD "")) "sid" = .ok sid)
    (hlabel : _safe (pyStrip (bd.label.getD "")) "label" = .ok label)
    (hfn : _safe (pyStrip (bd.filename.getD "")) "filename" = .ok fn)
    (hacct : env.storageAccountName = some acct)
    (httl : pyInt (env.sasTtlMinutes.getD "10") = .ok t)
    (hpos : 0 < t)
    (hudk : b.getUserDelegationKey (now - 60) (now + 60 * t) = .ok k)
    (hsas : b.generateBlobSas ⟨acct, env.uploadsContainer.getD "uploads",
        sid ++ "_" ++ label ++ extOrDefault fn, k, sasPermissions,
        now + 60 * t, now - 60, none⟩ = .ok sas) :
    (issue_sas b env gj now).2.head? = some (CallEvent.udk (now - 60) (now + 60 * t)) ∧
    now - 60 < now + 60 * t ∧
    (now + 60 * t) - (now - 60) = 60 * (t + 1) ∧
    bodyGet (issue_sas b env gj now).1.body "expiresInMinutes" = some (.int t) ∧
    (issue_sas b env gj now).1.statusCode = 200 := by
  subst hgj
  have hv : validateBody (.ok bd) = .ok (sid, label, fn) := by
    simp [validateBody, hsid, hlabel, hfn]
  have hcore : issueSasCore b env (.ok bd) now =
      (.ok ⟨"https://" ++ acct ++ ".blob.core.windows.net/" ++
          env.uploadsContainer.getD "uploads" ++ "/" ++
          (sid ++ "_" ++ label ++ extOrDefault fn) ++ "?" ++ sas,
        sid ++ "_" ++ label ++ extOrDefault fn, t⟩,
       [CallEvent.udk (now - 60) (now + 60 * t),
        CallEvent.sas ⟨acct, env.uploadsContainer.getD "uploads",
          sid ++ "_" ++ label ++ extOrDefault fn, k, sasPermissions,
          now + 60 * t, now - 60, none⟩]) := by
    simp [issueSasCore, hv, hacct, httl, hudk, hsas]
  refine ⟨?_, by omega, by ring_nf, ?_, ?_⟩
  · rw [show (issue_sas b env (.ok bd) now).2 = (issueSasCore b env (.ok bd) now).2
        from rfl, hcore]
    rfl
  · rw [issue_sas_eq, hcore]
    simp [handleResult, bodyGet, List.find?]
  · rw [issue_sas_eq, hcore]
    rfl

/-- Witness for C5 on the all-valid request at time 0 with TTL 10. -/
theorem validity_window_correct_witness :
    (issue_sas okBackend goodEnv (.ok goodBody) 0).2.head? =
      some (CallEvent.udk (0 - 60) (0 + 60 * 10)) ∧
    (0 : Int) - 60 < 0 + 60 * 10 ∧
    ((0 : Int) + 60 * 10) - (0 - 60) = 60 * (10 + 1) ∧
    bodyGet (issue_sas okBackend goodEnv (.ok goodBody) 0).1.body "expiresInMinutes" =
      some (.int 10) ∧
    (issue_sas okBackend goodEnv (.ok goodBody) 0).1.statusCode = 200 :=
  validity_window_correct okBackend goodEnv (.ok goodBody) 0 goodBody
    "case123" "intake" "form.pdf" "acct" 10 "udkey" "sig=abc"
    rfl rfl rfl rfl rfl rfl (by decide) rfl rfl

/-- C2 (amended): the code never checks the configured TTL itself: a
non-numeric TTL raises `ValueError` in `int()` and is returned as HTTP
400 plain text (the validation handler), with no backend call.  Every
numeric TTL t — positive or not — is accepted, and issuance proceeds to
request a delegation key for the window (now − 1 min, now + t min): for
t ≤ −1 that window is inverted (expiry ≤ start), while for t ≥ 0
(including the non-positive TTL "0") start is still strictly before
expiry; in neither case does the code itself produce a 500. -/
theorem ttl_config_behavior (b : Backend) (env : Env) (gj : Except PyExn ReqBody)
    (now : Int) (bd : ReqBody) (sid label fn acct : String)
    (hgj : gj = .ok bd)
    (hsid : _safe (pyStrip (bd.sid.getD "")) "sid" = .ok sid)
    (hlabel : _safe (pyStrip (bd.label.getD "")) "label" = .ok label)
    (hfn : _safe (pyStrip (bd.filename.getD "")) "filename" = .ok fn)
    (hacct : env.storageAccountName = some acct) :
    (∀ e, pyInt (env.sasTtlMinutes.getD "10") = .error e →
      (issue_sas b env gj now).1 = ⟨400, .plain e.msg⟩ ∧
      (issue_sas b env gj now).2 = []) ∧
    (∀ t, pyInt (env.sasTtlMinutes.getD "10") = .ok t →
      (issue_sas b env gj now).2.head? = some (CallEvent.udk (now - 60) (now + 60 * t)) ∧
      (t < 0 → now + 60 * t ≤ now - 60) ∧
      (0 ≤ t → now - 60 < now + 60 * t)) := by
  subst hgj
  have hv : validateBody (.ok bd) = .ok (sid, label, fn) := by
    simp [validateBody, hsid, hlabel, hfn]
  constructor
  · intro e he
    have herr := pyInt_err he
    have hcore : issueSasCore b env (.ok bd) now = (.error e, []) := by
      simp [issueSasCore, hv, hacct, he]
    rw [issue_sas_eq, hcore]
    subst herr
    exact ⟨rfl, rfl⟩
  · intro t ht
    refine ⟨?_, fun hneg => by omega, fun hpos => by omega⟩
    rw [show (issue_sas b env (.ok bd) now).2 = (issueSasCore b env (.ok bd) now).2
        from rfl]
    cases hudk : b.getUserDelegationKey (now - 60) (now + 60 * t) with
    | error e => simp [issueSasCore, hv, hacct, ht, hudk]
    | ok k =>
      cases hsas : b.generateBlobSas ⟨acct, env.uploadsContainer.getD "uploads",
          sid ++ "_" ++ label ++ extOrDefault fn, k, sasPermissions,
          now + 60 * t, now - 60, none⟩ with
      | error e => simp [issueSasCore, hv, hacct, ht, hudk, hsas]
      | ok u => simp [issueSasCore, hv, hacct, ht, hudk, hsas]

/-- Counterexample to C2 as stated: a non-numeric configured TTL "abc"
produces HTTP 400 (the `int()` ValueError is caught by the ValueError
handler), not 500; and the non-positive TTLs "-5" and "0" are accepted
by the code — against a backend that accepts the requested window the
response is even a 200 success. -/
theorem ttl_config_claim_cex :
    (issue_sas okBackend ⟨some "acct", some "uploads", some "abc"⟩
        (.ok goodBody) 0).1.statusCode = 400 ∧
    (issue_sas okBackend ⟨some "acct", some "uploads", some "abc"⟩
        (.ok goodBody) 0).1.statusCode ≠ 500 ∧
    (issue_sas okBackend ⟨some "acct", some "uploads", some "abc"⟩
        (.ok goodBody) 0).1.body =
      .plain "invalid literal for int() with base 10: 'abc'" ∧
    (issue_sas okBackend ⟨some "acct", some "uploads", some "-5"⟩
        (.ok goodBody) 0).1.statusCode = 200 ∧
    (issue_sas okBackend ⟨some "acct", some "uploads", some "0"⟩
        (.ok goodBody) 0).1.statusCode = 200 :=
  ⟨rfl, by decide, rfl, rfl, rfl⟩

/-- Witness for C2 (amended): with TTL "-5" the delegation key is
requested for the inverted window start = −60, expiry = −300; with TTL
"0" it is requested for the forward window start = −60, expiry = 0. -/
theorem ttl_config_behavior_witness :
    ((issue_sas okBackend ⟨some "acct", some "uploads", some "-5"⟩
        (.ok goodBody) 0).2.head? =
      some (CallEvent.udk ((0 : Int) - 60) ((0 : Int) + 60 * (-5))) ∧
     (0 : Int) + 60 * (-5) ≤ (0 : Int) - 60) ∧
    ((issue_sas okBackend ⟨some "acct", some "uploads", some "0"⟩
        (.ok goodBody) 0).2.head? =
      some (CallEvent.udk ((0 : Int) - 60) ((0 : Int) + 60 * 0)) ∧
     (0 : Int) - 60 < (0 : Int) + 60 * 0) := by
  have h1 := (ttl_config_behavior okBackend ⟨some "acct", some "uploads", some "-5"⟩
      (.ok goodBody) 0 goodBody "case123" "intake" "form.pdf" "acct"
      rfl rfl rfl rfl rfl).2 (-5) rfl
  have h2 := (ttl_config_behavior okBackend ⟨some "acct", some "uploads", some "0"⟩
      (.ok goodBody) 0 goodBody "case123" "intake" "form.pdf" "acct"
      rfl rfl rfl rfl rfl).2 0 rfl
  exact ⟨⟨h1.1, h1.2.1 (by decide)⟩, ⟨h2.1, h2.2.2 (by decide)⟩⟩

/-- C3 (amended): for every validated request, the derived object name is
sid_label followed by the extension taken from the last dot onward when
some earlier character of the filename is not a dot, and ".pdf"
otherwise (no dot at all, or only dots before the last dot). -/
theorem object_name_derivation (b : Backend) (env : Env) (gj : Except PyExn ReqBody)
    (now : Int) (sid label fn : String) (s : SuccessOut)
    (hv : validateBody gj = .ok (sid, label, fn))
    (hok : (issueSasCore b env gj now).1 = .ok s) :
    s.blobName = sid ++ "_" ++ label ++ amendedExt fn := by
  obtain ⟨sa, la, fa, hva, hna⟩ := core_ok_inv hok
  have heq := hva.symm.trans hv
  simp only [Except.ok.injEq, Prod.mk.injEq] at heq
  obtain ⟨e1, e2, e3⟩ := heq
  subst e1 e2 e3
  obtain ⟨bd, hbd, hs, hl, hf, g1, g2, g3⟩ := validateBody_ok_inv hv
  have hall : fa.data.all isSafeChar = true := by
    unfold goodToken at g3
    rw [Bool.and_eq_true] at g3
    exact g3.2
  rw [hna, extOrDefault_eq_amendedExt hall]

/-- Counterexample to C3 as stated: the validated filename ".bashrc"
contains a dot, so the claim's rule makes the extension ".bashrc" and
the object name "case123_intake.bashrc" — but `os.path.splitext` treats
a leading dot as no extension, and the code produces
"case123_intake.pdf". -/
theorem object_name_ext_claim_cex :
    claimExt ".bashrc" = ".bashrc" ∧
    (issueSasCore okBackend goodEnv
        (.ok ⟨some "case123", some "intake", some ".bashrc"⟩) 0).1 =
      .ok ⟨"https://acct.blob.core.windows.net/uploads/case123_intake.pdf?sig=abc",
           "case123_intake.pdf", 10⟩ ∧
    "case123_intake.pdf" ≠ "case123" ++ "_" ++ "intake" ++ claimExt ".bashrc" :=
  ⟨by decide, rfl, by decide⟩

/-- Witness for C3 (amended) on filename "form.tar.gz": the derived name
keeps only the final ".gz". -/
theorem object_name_derivation_witness :
    validateBody (.ok ⟨some "case123", some "intake", some "form.tar.gz"⟩) =
      .ok ("case123", "intake", "form.tar.gz") ∧
    (issueSasCore okBackend goodEnv
        (.ok ⟨some "case123", some "intake", some "form.tar.gz"⟩) 0).1 =
      .ok ⟨"https://acct.blob.core.windows.net/uploads/case123_intake.gz?sig=abc",
           "case123_intake.gz", 10⟩ ∧
    ("case123_intake.gz" : String) = "case123" ++ "_" ++ "intake" ++ amendedExt "form.tar.gz" :=
  ⟨rfl, rfl,
   object_name_derivation okBackend goodEnv
     (.ok ⟨some "case123", some "intake", some "form.tar.gz"⟩) 0
     "case123" "intake" "form.tar.gz" _ rfl rfl⟩

/-- C7 (amended): when the try-block fails, the response never carries an
`uploadUrl`; a non-ValueError failure (e.g. a network error from the
backend) is returned as HTTP 500 with JSON error kind and detail, while
a failure raising ValueError is returned as HTTP 400 plain text. -/
theorem failure_response_shape (b : Backend) (env : Env) (gj : Except PyExn ReqBody)
    (now : Int) (e : PyExn)
    (h : (issueSasCore b env gj now).1 = .error e) :
    bodyHasKey (issue_sas b env gj now).1.body "uploadUrl" = false ∧
    (e.isValueError = false → (issue_sas b env gj now).1 =
      ⟨500, .json [("error", .str e.typeName), ("detail", .str e.msg)]⟩) ∧
    (e.isValueError = true → (issue_sas b env gj now).1 = ⟨400, .plain e.msg⟩) := by
  have hresp : (issue_sas b env gj now).1 = handleResult (issueSasCore b env gj now).1 := rfl
  refine ⟨?_, fun hb => ?_, fun hb => ?_⟩
  · rw [hresp, h]
    unfold handleResult
    cases hb : e.isValueError with
    | false =>
      simp only [hb, Bool.false_eq_true, if_false]
      have h1 : (("error" : String) == "uploadUrl") = false := by decide
      have h2 : (("detail" : String) == "uploadUrl") = false := by decide
      simp [bodyHasKey, h1, h2]
    | true => simp [hb, bodyHasKey]
  · rw [hresp, h]
    simp [handleResult, hb]
  · rw [hresp, h]
    simp [handleResult, hb]

/-- Counterexample to C7 as stated: a backend failure that raises
`ValueError` (as the SDK does for malformed parameters) is mapped to
HTTP 400 plain text, not to a 500 JSON body. -/
theorem backend_failure_claim_cex :
    valueErrBackend.getUserDelegationKey ((0 : Int) - 60) ((0 : Int) + 60 * 10) =
      .error ⟨"ValueError", "Invalid datetime", true⟩ ∧
    (issue_sas valueErrBackend goodEnv (.ok goodBody) 0).2 =
      [CallEvent.udk ((0 : Int) - 60) ((0 : Int) + 60 * 10)] ∧
    (issue_sas valueErrBackend goodEnv (.ok goodBody) 0).1 =
      ⟨400, .plain "Invalid datetime"⟩ ∧
    (issue_sas valueErrBackend goodEnv (.ok goodBody) 0).1.statusCode ≠ 500 :=
  ⟨rfl, rfl, rfl, by decide⟩

/-- Witness for C7 (amended): a simulated network error from the backend
yields 500 with the error kind and detail, and no uploadUrl key. -/
theorem failure_response_shape_witness :
    bodyHasKey (issue_sas failBackend goodEnv (.ok goodBody) 0).1.body "uploadUrl" = false ∧
    (issue_sas failBackend goodEnv (.ok goodBody) 0).1 =
      ⟨500, .json [("error", .str "ServiceRequestError"),
                   ("detail", .str "connection reset")]⟩ := by
  have h := failure_response_shape failBackend goodEnv (.ok goodBody) 0
    ⟨"ServiceRequestError", "connection reset", false⟩ rfl
  exact ⟨h.1, h.2.1 rfl⟩

end FuncApp
